import Mathlib

/-!
Verification of the µOS++ (CMSIS++) RTOS core against its specification.

The development shallowly embeds the declarations of
`src/include/cmsis-plus/rtos/os-decls.h`: result codes, flag modes, thread
priorities and states, the scheduler status, mutex / semaphore types and
bounds, and the `Named_object` base class.  Machine integers are embedded as
`Nat` / `Int`; the relevant widths (`uint8_t` priorities, `uint16_t`
recursion counters, `int16_t` semaphore counters) are carried as explicit
bounds where they matter.

The bodies of the RTOS operations (scheduler `lock`/`unlock`, `Mutex::lock`,
`Semaphore::post`, `signal_wait`, the `Named_object` constructor) live in
implementation files that are not part of the given sources; those
operations are modelled from the specification, and each such definition is
marked `Modelled from the spec:` in its doc comment.
-/

namespace os

namespace rtos

/-! ## Result codes (`os-decls.h`, `result_t` and `result::ok`) -/

namespace result

/-- Source: `enum : result_t ... ok = 0`; the type `result_t` is `uint32_t`,
embedded as `Nat`. -/
def ok : Nat := 0

end result

/-! POSIX-aligned error numbers used by the RTOS, taken from the platform
`<errno.h>`.  The concrete numeric values are those of the usual `<errno.h>`
layout; every property proved below depends only on the codes being nonzero
and pairwise distinct, which holds in every POSIX-conforming `<errno.h>`. -/

namespace errno

def EPERM : Nat := 1

def EINTR : Nat := 4

def EAGAIN : Nat := 11

def ENOMEM : Nat := 12

def EINVAL : Nat := 22

def EDEADLK : Nat := 35

def EBADMSG : Nat := 74

def EOVERFLOW : Nat := 75

def EMSGSIZE : Nat := 90

def ETIMEDOUT : Nat := 110

def EOWNERDEAD : Nat := 130

def ENOTRECOVERABLE : Nat := 131

end errno

/-- The documented set of error codes in use (spec §6 "Error codes"). -/
def documented_errnos : List Nat :=
  [errno.EPERM, errno.EINVAL, errno.EAGAIN, errno.ENOTRECOVERABLE,
   errno.EDEADLK, errno.EMSGSIZE, errno.EBADMSG, errno.EINTR,
   errno.ETIMEDOUT, errno.EOWNERDEAD, errno.ENOMEM, errno.EOVERFLOW]

/-! ## Flag modes (`os-decls.h`, `flags::mode`) -/

namespace flags

namespace mode

/-- Source: `all = 1` — return when all flags are set. -/
def all : Nat := 1

/-- Source: `any = 2` — return when at least one flag is set. -/
def any : Nat := 2

/-- Source: `clear = 4` — ask for flags to be cleared after read. -/
def clear : Nat := 4

end mode

end flags

/-! ## Thread priorities (`os-decls.h`, `thread::priority`) -/

namespace thread

namespace priority

/-- Source: `constexpr uint32_t range = 4;` — the priorities pre-scaler. -/
def range : Nat := 4

/-- Source expression `idle = (1 << range)`, with the pre-scaler as an
explicit parameter (the configuration surface allows `0..4`). -/
def idle_at (r : Nat) : Nat := 1 <<< r

/-- Source expression `lowest = (2 << range)` parametrised by the pre-scaler. -/
def lowest_at (r : Nat) : Nat := 2 <<< r

/-- Source expression `low = (2 << range)` parametrised by the pre-scaler. -/
def low_at (r : Nat) : Nat := 2 <<< r

/-- Source expression `below_normal = (4 << range)` parametrised by the
pre-scaler. -/
def below_normal_at (r : Nat) : Nat := 4 <<< r

/-- Source expression `normal = (6 << range)` parametrised by the pre-scaler. -/
def normal_at (r : Nat) : Nat := 6 <<< r

/-- Source expression `above_normal = (8 << range)` parametrised by the
pre-scaler. -/
def above_normal_at (r : Nat) : Nat := 8 <<< r

/-- Source expression `high = (10 << range)` parametrised by the pre-scaler. -/
def high_at (r : Nat) : Nat := 10 <<< r

/-- Source expression `realtime = (12 << range)` parametrised by the
pre-scaler. -/
def realtime_at (r : Nat) : Nat := 12 <<< r

/-- Source expression `highest = (((13 + 1) << range) - 1)` parametrised by
the pre-scaler. -/
def highest_at (r : Nat) : Nat := ((13 + 1) <<< r) - 1

/-- Source expression `isr = (((14 + 1) << range) - 1)` parametrised by the
pre-scaler. -/
def isr_at (r : Nat) : Nat := ((14 + 1) <<< r) - 1

/-- Source expression `error = (((15 + 1) << range) - 1)` parametrised by
the pre-scaler. -/
def error_at (r : Nat) : Nat := ((15 + 1) <<< r) - 1

/-- Source: `none = 0` — undefined, thread not initialised. -/
def none : Nat := 0

/-- Source: `idle = (1 << range)` — system reserved for the IDLE thread. -/
def idle : Nat := idle_at range

/-- Source: `lowest = (2 << range)` — lowest available for user code. -/
def lowest : Nat := lowest_at range

/-- Source: `low = (2 << range)`. -/
def low : Nat := low_at range

/-- Source: `below_normal = (4 << range)`. -/
def below_normal : Nat := below_normal_at range

/-- Source: `normal = (6 << range)` — default priority. -/
def normal : Nat := normal_at range

/-- Source: `above_normal = (8 << range)`. -/
def above_normal : Nat := above_normal_at range

/-- Source: `high = (10 << range)`. -/
def high : Nat := high_at range

/-- Source: `realtime = (12 << range)`. -/
def realtime : Nat := realtime_at range

/-- Source: `highest = (((13 + 1) << range) - 1)` — highest available for
user code. -/
def highest : Nat := highest_at range

/-- Source: `isr = (((14 + 1) << range) - 1)` — system reserved for the ISR
deferred thread. -/
def isr : Nat := isr_at range

/-- Source: `error = (((15 + 1) << range) - 1)`. -/
def error : Nat := error_at range

/-- The three priorities the source marks as system reserved: `none`
(uninitialised), `idle` (IDLE thread), `isr` (ISR deferred thread). -/
def reserved : List Nat := [priority.none, priority.idle, priority.isr]

end priority

/-! ## Thread states (`os-decls.h`, `thread::state`) -/

/-- Source: `enum class state : uint8_t` with the seven enumerators
`undefined = 0 .. destroyed = 6`. -/
inductive state : Type
  | undefined
  | inactive
  | ready
  | running
  | waiting
  | terminated
  | destroyed
  deriving DecidableEq, Repr

/-- The numeric encoding of the source enumeration (`undefined = 0`,
`inactive = 1`, `ready = 2`, `running = 3`, `waiting = 4`,
`terminated = 5`, `destroyed = 6`). -/
def state.toNat : state → Nat
  | .undefined => 0
  | .inactive => 1
  | .ready => 2
  | .running => 3
  | .waiting => 4
  | .terminated => 5
  | .destroyed => 6

/-- Modelled from the spec: the per-thread state machine
`undefined → inactive → ready ⇄ running ⇄ waiting → terminated → destroyed`
(the transition code lives in the thread / scheduler implementation files,
which are not among the given sources).  `can_transition s t` is `true`
exactly when the chain admits a direct transition from `s` to `t`:
creation, activation, dispatch, preemption, blocking, wakeup, exit and
destruction. -/
def state.can_transition : state → state → Bool
  | .undefined, .inactive => true
  | .inactive, .ready => true
  | .ready, .running => true
  | .running, .ready => true
  | .running, .waiting => true
  | .waiting, .ready => true
  | .running, .terminated => true
  | .terminated, .destroyed => true
  | _, _ => false

/-! ## Thread signal flags (`os-decls.h`, `thread::sig`) -/

namespace sig

/-- Source: `any = 0` — special signal mask to represent any flag. -/
def any : Nat := 0

/-- Source: `all = 0xFFFFFFFF` — special signal mask to represent all
flags. -/
def all : Nat := 0xFFFFFFFF

end sig

/-- Modelled from the spec: the flag-satisfaction test used by
`signal_wait(mask, mode)` (the implementation file is not among the given
sources).  A zero `mask` means "any currently raised bit"; otherwise mode
`all` requires every bit of `mask` raised, and mode `any` requires at least
one. -/
def sig.satisfied (raised mask mode : Nat) : Bool :=
  if mask = 0 then decide (raised ≠ 0)
  else if mode &&& flags.mode.all ≠ 0 then decide (raised &&& mask = mask)
  else decide (raised &&& mask ≠ 0)

end thread

/-! ## Scheduler status and lock / unlock (`os-decls.h`, `scheduler`) -/

namespace scheduler

/-- Modelled from the spec: the scheduler lock nesting state.  The source
declares only `using status_t = bool;` (locked or not); per the spec the
nesting of `lock()` / `unlock()` pairs is counter based, so the state is
the depth of nesting, with depth `0` meaning unlocked. -/
structure sched_state : Type where
  lock_count : Nat
  deriving DecidableEq, Repr

/-- The scheduler status (`status_t`, a boolean): `true` when the scheduler
is locked, i.e. the nesting counter is nonzero. -/
def locked (s : sched_state) : Bool := decide (s.lock_count ≠ 0)

/-- Preemption is possible exactly when no scheduler lock is in effect. -/
def preemption_enabled (s : sched_state) : Bool := decide (s.lock_count = 0)

/-- Modelled from the spec: `lock()` — enter a non-preemptive region,
returning the status in effect before the call; the nesting counter is
incremented. -/
def lock (s : sched_state) : Bool × sched_state :=
  (locked s, ⟨s.lock_count + 1⟩)

/-- Modelled from the spec: `unlock(status)` — leave the innermost
non-preemptive region.  The caller passes back the status returned by the
matching `lock()`; in the counter model the decrement is what restores
that status (proved below for balanced pairs), so the state change is the
decrement. -/
def unlock (_prev : Bool) (s : sched_state) : sched_state :=
  ⟨s.lock_count - 1⟩

/-- `n` nested `lock()` calls, discarding the saved statuses. -/
def lock_iter : Nat → sched_state → sched_state
  | 0, s => s
  | n + 1, s => lock_iter n (lock s).2

/-- `n` nested `unlock()` calls. -/
def unlock_iter : Nat → sched_state → sched_state
  | 0, s => s
  | n + 1, s => unlock_iter n (unlock true s)

end scheduler

/-! ## Mutex (`os-decls.h`, `mutex`) -/

namespace mutex

/-- Source: `enum class type : uint8_t` — normal, errorcheck, recursive. -/
inductive type : Type
  | normal
  | errorcheck
  | recursive
  deriving DecidableEq, Repr

/-- Source: `using count_t = uint16_t;` together with
`constexpr count_t max_count = 0xFFFF;`. -/
def max_count : Nat := 0xFFFF

/-- The mutex state relevant to locking: the owning thread (by id, `none`
when free), the recursion counter (`count_t`, a `uint16_t`) and the
behaviour type.  Field names follow the source members `owner_`, `count_`,
`type_`. -/
structure Mutex : Type where
  owner_ : Option Nat
  count_ : Nat
  type_ : type
  deriving DecidableEq, Repr

/-- Outcome of a lock attempt: either an immediate return with a result
code and the new mutex state, or suspension of the caller (waiting for the
owner, or the self-deadlock of relocking a normal mutex). -/
inductive lock_outcome : Type
  | ret (code : Nat) (m : Mutex)
  | blocks
  deriving DecidableEq, Repr

/-- Modelled from the spec: the decision step of `Mutex::lock()` for thread
`t` (the implementation file is not among the given sources).  A free mutex
is acquired with counter `1`.  A relock by the owner depends on the type:
recursive increments the counter up to `max_count` and fails with `EAGAIN`
(resource busy) at the cap, errorcheck returns `EDEADLK` (deadlock would
occur), normal deadlocks (the caller blocks).  A mutex owned by another
thread makes the caller block. -/
def lock_step (m : Mutex) (t : Nat) : lock_outcome :=
  match m.owner_ with
  | Option.none => .ret result.ok { m with owner_ := some t, count_ := 1 }
  | some o =>
    if o = t then
      match m.type_ with
      | .recursive =>
        if m.count_ = max_count then .ret errno.EAGAIN m
        else .ret result.ok { m with count_ := m.count_ + 1 }
      | .errorcheck => .ret errno.EDEADLK m
      | .normal => .blocks
    else .blocks

end mutex

/-! ## Semaphore (`os-decls.h`, `semaphore`) -/

namespace semaphore

/-- Source: `constexpr count_t max_count_value = 0x7FFF;` — the maximum
value of the `int16_t` counter, used to validate initial and max counts. -/
def max_count_value : Int := 0x7FFF

/-- The semaphore state: the signed counter (`count_t`, an `int16_t`), the
per-semaphore maximum, and the FIFO list of waiting threads (by id). -/
structure Semaphore : Type where
  count_ : Int
  max_count_ : Int
  waiters_ : List Nat
  deriving DecidableEq, Repr

/-- Well-formedness of a semaphore: the counter never exceeds the cap and
the cap is a valid `count_t` value (at most `max_count_value`, positive). -/
def wf (s : Semaphore) : Prop :=
  s.count_ ≤ s.max_count_ ∧ 0 < s.max_count_ ∧ s.max_count_ ≤ max_count_value

/-- Modelled from the spec: `Semaphore::post()` (the implementation file is
not among the given sources).  If the counter is already at the cap the
call fails with `EOVERFLOW` and changes nothing; otherwise the counter is
incremented and, when the previous count was ≤ 0, exactly one waiter (the
FIFO head, if any) is woken.  Returns the result code, the new state and
the list of woken threads. -/
def post (s : Semaphore) : Nat × Semaphore × List Nat :=
  if s.max_count_ ≤ s.count_ then (errno.EOVERFLOW, s, [])
  else if s.count_ ≤ 0 then
    (result.ok,
     { s with count_ := s.count_ + 1, waiters_ := s.waiters_.drop 1 },
     s.waiters_.take 1)
  else
    (result.ok, { s with count_ := s.count_ + 1 }, [])

end semaphore

/-! ## Named objects (`os-decls.h`, `Named_object`) -/

/-- The `Named_object` base class: it stores a single pointer to a name
(`const char* const name_`).  A possibly null `const char*` is embedded as
`Option String`. -/
structure Named_object : Type where
  name_ : Option String
  deriving DecidableEq, Repr

/-- Modelled from the spec: the constructor `Named_object (const char*
name)` (the implementation file is not among the given sources; the header
documents "Null terminated name. If `nullptr`, \"-\" is assigned."). -/
def Named_object.construct (nm : Option String) : Named_object :=
  match nm with
  | Option.none => ⟨some "-"⟩
  | some s => ⟨some s⟩

/-- Source (inline in `os-decls.h`): `name()` returns the stored pointer
`name_`. -/
def Named_object.name (o : Named_object) : Option String := o.name_

/-! ## Theorems -/

/-- C1: a thread state is one of exactly the seven enumerated values
(`undefined`, `inactive`, `ready`, `running`, `waiting`, `terminated`,
`destroyed`), and every state transition follows the chain
`undefined → inactive → ready ⇄ running ⇄ waiting` with
`running → terminated → destroyed`; in particular a transition out of
`waiting` goes only to `ready`, and a transition into `waiting` comes only
from `running`. -/
theorem thread_state_machine :
    (∀ s : thread.state, s ∈ [thread.state.undefined, thread.state.inactive,
      thread.state.ready, thread.state.running, thread.state.waiting,
      thread.state.terminated, thread.state.destroyed]) ∧
    (∀ s t : thread.state, thread.state.can_transition s t = true →
      (s, t) ∈ [(thread.state.undefined, thread.state.inactive),
        (thread.state.inactive, thread.state.ready),
        (thread.state.ready, thread.state.running),
        (thread.state.running, thread.state.ready),
        (thread.state.running, thread.state.waiting),
        (thread.state.waiting, thread.state.ready),
        (thread.state.running, thread.state.terminated),
        (thread.state.terminated, thread.state.destroyed)]) ∧
    (∀ t : thread.state,
      thread.state.can_transition thread.state.waiting t = true →
      t = thread.state.ready) ∧
    (∀ s : thread.state,
      thread.state.can_transition s thread.state.waiting = true →
      s = thread.state.running) := by
  refine ⟨?_, ?_, ?_, ?_⟩
  · intro s; cases s <;> simp
  · intro s t h
    cases s <;> cases t <;> simp_all [thread.state.can_transition]
  · intro t h; cases t <;> simp_all [thread.state.can_transition]
  · intro s h; cases s <;> simp_all [thread.state.can_transition]

/-- Witness for C1: the wakeup transition `waiting → ready` and the
blocking transition `running → waiting` are concrete instances of the two
uniqueness statements. -/
theorem thread_state_machine_witness :
    thread.state.ready = thread.state.ready ∧
    thread.state.running = thread.state.running :=
  ⟨thread_state_machine.2.2.1 thread.state.ready (by decide),
   thread_state_machine.2.2.2 thread.state.running (by decide)⟩

/-- C2: priorities span `0 .. 255` (the `uint8_t` top value being the
`error` constant `255`) and the named constants are strictly increasing
(higher value, higher priority).  The three system-reserved priorities are
`none = 0`, `idle` and `isr`, and every user priority, from `lowest` up to
`highest`, lies strictly between `idle` and `isr` and is none of the
reserved values. -/
theorem priority_reserved_bounds :
    (thread.priority.none = 0 ∧ thread.priority.error = 255 ∧
     thread.priority.none < thread.priority.idle ∧
     thread.priority.idle < thread.priority.lowest ∧
     thread.priority.lowest = thread.priority.low ∧
     thread.priority.low < thread.priority.below_normal ∧
     thread.priority.below_normal < thread.priority.normal ∧
     thread.priority.normal < thread.priority.above_normal ∧
     thread.priority.above_normal < thread.priority.high ∧
     thread.priority.high < thread.priority.realtime ∧
     thread.priority.realtime < thread.priority.highest ∧
     thread.priority.highest < thread.priority.isr ∧
     thread.priority.isr < thread.priority.error ∧
     thread.priority.reserved =
       [thread.priority.none, thread.priority.idle, thread.priority.isr]) ∧
    (∀ p : Nat, thread.priority.lowest ≤ p → p ≤ thread.priority.highest →
      thread.priority.idle < p ∧ p < thread.priority.isr ∧
      p ∉ thread.priority.reserved) := by
  constructor
  · decide
  · intro p h1 h2
    have hl : thread.priority.lowest = 32 := by decide
    have hh : thread.priority.highest = 223 := by decide
    have hi : thread.priority.idle = 16 := by decide
    have hs : thread.priority.isr = 239 := by decide
    have hr : thread.priority.reserved = [0, 16, 239] := by decide
    rw [hl] at h1
    rw [hh] at h2
    refine ⟨?_, ?_, ?_⟩
    · rw [hi]; omega
    · rw [hs]; omega
    · rw [hr]; simp; omega

/-- Witness for C2: the default priority `normal` is a user priority
strictly between the reserved `idle` and `isr` values. -/
theorem priority_reserved_bounds_witness :
    thread.priority.idle < thread.priority.normal ∧
    thread.priority.normal < thread.priority.isr ∧
    thread.priority.normal ∉ thread.priority.reserved :=
  priority_reserved_bounds.2 thread.priority.normal (by decide) (by decide)

/-- Two scheduler states with the same nesting count are equal. -/
theorem sched_state_eq_of_count (s t : scheduler.sched_state)
    (h : s.lock_count = t.lock_count) : s = t := by
  cases s; cases t; simpa using h

/-- The nesting counter after `n` nested `lock()` calls. -/
theorem lock_iter_count (n : Nat) :
    ∀ s : scheduler.sched_state,
      (scheduler.lock_iter n s).lock_count = s.lock_count + n := by
  induction n with
  | zero => intro s; rfl
  | succ k ih =>
    intro s
    have := ih (scheduler.lock s).2
    simp only [scheduler.lock_iter, scheduler.lock] at this ⊢
    omega

/-- The nesting counter after `n` nested `unlock()` calls. -/
theorem unlock_iter_count (n : Nat) :
    ∀ s : scheduler.sched_state,
      (scheduler.unlock_iter n s).lock_count = s.lock_count - n := by
  induction n with
  | zero => intro s; rfl
  | succ k ih =>
    intro s
    have := ih (scheduler.unlock true s)
    simp only [scheduler.unlock_iter, scheduler.unlock] at this ⊢
    omega

/-- C3: `lock()` returns the status in effect before the call, the
matching `unlock()` restores exactly that status (a `lock()` immediately
followed by `unlock()` leaves the scheduler state unchanged), nesting is
supported through the counter (`n` locks followed by `n` unlocks restore
the initial state), and preemption is re-enabled only by the outermost
`unlock()`, the one that brings the counter back to zero. -/
theorem scheduler_lock_unlock :
    (∀ s : scheduler.sched_state,
      (scheduler.lock s).1 = scheduler.locked s) ∧
    (∀ (p : Bool) (s : scheduler.sched_state),
      scheduler.unlock p (scheduler.lock s).2 = s) ∧
    (∀ s : scheduler.sched_state,
      scheduler.locked
        (scheduler.unlock (scheduler.lock s).1 (scheduler.lock s).2) =
      scheduler.locked s) ∧
    (∀ s : scheduler.sched_state,
      scheduler.locked (scheduler.lock s).2 = true ∧
      scheduler.preemption_enabled (scheduler.lock s).2 = false) ∧
    (∀ (n : Nat) (s : scheduler.sched_state),
      scheduler.unlock_iter n (scheduler.lock_iter n s) = s) ∧
    (∀ (p : Bool) (s : scheduler.sched_state), 0 < s.lock_count →
      (scheduler.preemption_enabled (scheduler.unlock p s) = true ↔
        s.lock_count = 1)) := by
  have hrestore : ∀ (p : Bool) (s : scheduler.sched_state),
      scheduler.unlock p (scheduler.lock s).2 = s := by
    intro p s
    apply sched_state_eq_of_count
    simp [scheduler.unlock, scheduler.lock]
  refine ⟨fun s => rfl, hrestore, ?_, ?_, ?_, ?_⟩
  · intro s; rw [hrestore]
  · intro s
    constructor
    · simp [scheduler.locked, scheduler.lock]
    · simp [scheduler.preemption_enabled, scheduler.lock]
  · intro n s
    apply sched_state_eq_of_count
    rw [unlock_iter_count, lock_iter_count]
    omega
  · intro p s h
    simp only [scheduler.preemption_enabled, scheduler.unlock,
      decide_eq_true_eq]
    omega

/-- Witness for C3: unlocking from nesting depth 1 is the outermost unlock
and re-enables preemption. -/
theorem scheduler_lock_unlock_witness :
    scheduler.preemption_enabled (scheduler.unlock true ⟨1⟩) = true ↔
      (⟨1⟩ : scheduler.sched_state).lock_count = 1 :=
  scheduler_lock_unlock.2.2.2.2.2 true ⟨1⟩ (by decide)

/-- C4: for a recursive mutex owned by the caller, a relock increments the
recursion counter; the counter is bounded by `max_count = 65535` and a
relock at the cap fails with `EAGAIN` (resource busy), leaving counter and
ownership unchanged; for an errorcheck mutex a relock by the owner returns
`EDEADLK` (deadlock would occur). -/
theorem mutex_recursive_relock :
    mutex.max_count = 65535 ∧
    (∀ (m : mutex.Mutex) (t : Nat), m.owner_ = some t →
      m.type_ = mutex.type.recursive → m.count_ < mutex.max_count →
      mutex.lock_step m t =
        mutex.lock_outcome.ret result.ok { m with count_ := m.count_ + 1 }) ∧
    (∀ (m : mutex.Mutex) (t : Nat), m.owner_ = some t →
      m.type_ = mutex.type.recursive → m.count_ = mutex.max_count →
      mutex.lock_step m t = mutex.lock_outcome.ret errno.EAGAIN m) ∧
    (∀ (m : mutex.Mutex) (t : Nat), m.owner_ = some t →
      m.type_ = mutex.type.errorcheck →
      mutex.lock_step m t = mutex.lock_outcome.ret errno.EDEADLK m) ∧
    (∀ (m : mutex.Mutex) (t : Nat), m.owner_ = some t →
      m.count_ ≤ mutex.max_count →
      ∀ (code : Nat) (m2 : mutex.Mutex),
        mutex.lock_step m t = mutex.lock_outcome.ret code m2 →
        m2.count_ ≤ mutex.max_count ∧ m2.owner_ = m.owner_) := by
  refine ⟨by decide, ?_, ?_, ?_, ?_⟩
  · intro m t h1 h2 h3
    have hne : m.count_ ≠ mutex.max_count := Nat.ne_of_lt h3
    simp [mutex.lock_step, h1, h2, hne]
  · intro m t h1 h2 h3
    simp [mutex.lock_step, h1, h2, h3]
  · intro m t h1 h2
    simp [mutex.lock_step, h1, h2]
  · intro m t h1 hc code m2 h
    unfold mutex.lock_step at h
    split at h
    · simp only [mutex.lock_outcome.ret.injEq] at h
      obtain ⟨hcode, hm2⟩ := h
      subst hm2
      constructor
      · show (1 : Nat) ≤ mutex.max_count
        decide
      · show some t = m.owner_
        exact h1.symm
    · split at h
      · split at h
        · split at h
          · simp only [mutex.lock_outcome.ret.injEq] at h
            obtain ⟨hcode, hm2⟩ := h
            subst hm2
            exact ⟨hc, rfl⟩
          · rename_i hne
            simp only [mutex.lock_outcome.ret.injEq] at h
            obtain ⟨hcode, hm2⟩ := h
            subst hm2
            refine ⟨?_, rfl⟩
            show m.count_ + 1 ≤ mutex.max_count
            exact Nat.succ_le_of_lt (Nat.lt_of_le_of_ne hc hne)
        · simp only [mutex.lock_outcome.ret.injEq] at h
          obtain ⟨hcode, hm2⟩ := h
          subst hm2
          exact ⟨hc, rfl⟩
        · exact mutex.lock_outcome.noConfusion h
      · exact mutex.lock_outcome.noConfusion h

/-- Witness for C4: a recursive mutex owned by thread 1 with the counter
at the cap refuses the relock with `EAGAIN` and is left unchanged. -/
theorem mutex_recursive_relock_witness :
    mutex.lock_step ⟨some 1, 65535, mutex.type.recursive⟩ 1 =
      mutex.lock_outcome.ret errno.EAGAIN
        ⟨some 1, 65535, mutex.type.recursive⟩ :=
  mutex_recursive_relock.2.2.1 ⟨some 1, 65535, mutex.type.recursive⟩ 1
    rfl rfl (by decide)

/-- Case equation: `post` on a semaphore below the cap with count ≤ 0. -/
theorem semaphore_post_eq_wake (s : semaphore.Semaphore)
    (h1 : ¬ s.max_count_ ≤ s.count_) (h2 : s.count_ ≤ 0) :
    semaphore.post s =
      (result.ok,
       { s with count_ := s.count_ + 1, waiters_ := s.waiters_.drop 1 },
       s.waiters_.take 1) := by
  unfold semaphore.post
  rw [if_neg h1, if_pos h2]

/-- Case equation: `post` on a semaphore below the cap with count > 0. -/
theorem semaphore_post_eq_incr (s : semaphore.Semaphore)
    (h1 : ¬ s.max_count_ ≤ s.count_) (h2 : ¬ s.count_ ≤ 0) :
    semaphore.post s =
      (result.ok, { s with count_ := s.count_ + 1 }, []) := by
  unfold semaphore.post
  rw [if_neg h1, if_neg h2]

/-- Case equation: `post` on a semaphore at (or above) the cap. -/
theorem semaphore_post_eq_full (s : semaphore.Semaphore)
    (h1 : s.max_count_ ≤ s.count_) :
    semaphore.post s = (errno.EOVERFLOW, s, []) := by
  unfold semaphore.post
  rw [if_pos h1]

/-- C5: the semaphore counter is bounded by the per-semaphore cap, itself
at most `max_count_value = 32767` (the `int16_t` maximum); on a
well-formed semaphore `post` below the cap succeeds, increments the
counter and wakes exactly one waiter (the FIFO head) when the previous
count was ≤ 0; a `post` at the cap fails with `EOVERFLOW` and leaves the
semaphore unchanged; well-formedness is preserved. -/
theorem semaphore_post_cap :
    semaphore.max_count_value = 32767 ∧
    (∀ s : semaphore.Semaphore, semaphore.wf s →
      s.max_count_ ≤ 32767 ∧
      (s.count_ < s.max_count_ →
        (semaphore.post s).1 = result.ok ∧
        (semaphore.post s).2.1.count_ = s.count_ + 1 ∧
        (semaphore.post s).2.2 =
          (if s.count_ ≤ 0 then s.waiters_.take 1 else []) ∧
        (s.count_ ≤ 0 → s.waiters_ ≠ [] →
          (semaphore.post s).2.2.length = 1)) ∧
      (s.max_count_ ≤ s.count_ →
        semaphore.post s = (errno.EOVERFLOW, s, [])) ∧
      semaphore.wf (semaphore.post s).2.1) := by
  refine ⟨by decide, ?_⟩
  intro s hwf
  obtain ⟨hcle, hpos, hmax⟩ := hwf
  have h32 : semaphore.max_count_value = (32767 : Int) := by decide
  rw [h32] at hmax
  refine ⟨hmax, ?_, semaphore_post_eq_full s, ?_⟩
  · intro hlt
    have hno : ¬ s.max_count_ ≤ s.count_ := not_le.mpr hlt
    by_cases h0 : s.count_ ≤ 0
    · rw [semaphore_post_eq_wake s hno h0, if_pos h0]
      refine ⟨rfl, rfl, rfl, ?_⟩
      intro _ hne
      cases hw : s.waiters_ with
      | nil => exact absurd hw hne
      | cons a l => simp [hw]
    · rw [semaphore_post_eq_incr s hno h0, if_neg h0]
      exact ⟨rfl, rfl, rfl, fun h => absurd h h0⟩
  · by_cases h1 : s.max_count_ ≤ s.count_
    · rw [semaphore_post_eq_full s h1]
      exact ⟨hcle, hpos, hmax.trans_eq h32.symm⟩
    · by_cases h0 : s.count_ ≤ 0
      · rw [semaphore_post_eq_wake s h1 h0]
        refine ⟨?_, hpos, hmax.trans_eq h32.symm⟩
        show s.count_ + 1 ≤ s.max_count_
        omega
      · rw [semaphore_post_eq_incr s h1 h0]
        refine ⟨?_, hpos, hmax.trans_eq h32.symm⟩
        show s.count_ + 1 ≤ s.max_count_
        omega

/-- Witness for C5: posting a well-formed semaphore with count 0, cap 1
and one waiting thread succeeds and wakes exactly that thread. -/
theorem semaphore_post_cap_witness :
    semaphore.wf ⟨0, 1, [7]⟩ ∧
    (semaphore.post ⟨0, 1, [7]⟩).1 = result.ok ∧
    (semaphore.post ⟨0, 1, [7]⟩).2.2.length = 1 := by
  have hwf : semaphore.wf ⟨0, 1, [7]⟩ := by
    refine ⟨by decide, by decide, by decide⟩
  have h := (semaphore_post_cap.2 ⟨0, 1, [7]⟩ hwf).2.1 (by decide)
  exact ⟨hwf, h.1, h.2.2.2 (by decide) (by decide)⟩

/-- C6: for a pre-scaler value `r` in `0..4` the priority space has
`16 <<< r` levels (16, 32, 64, 128, 256), and at the default `r = 4` there
are 256 levels arranged as 16 bands of 16 sub-levels, every named priority
constant lying on a band boundary (`k * 16` or `k * 16 - 1`). -/
theorem priority_levels_prescaler :
    (∀ r : Nat, r ≤ 4 → thread.priority.error_at r + 1 = 16 <<< r) ∧
    ([(16 : Nat) <<< 0, 16 <<< 1, 16 <<< 2, 16 <<< 3, 16 <<< 4] =
      [16, 32, 64, 128, 256]) ∧
    (thread.priority.range = 4 ∧
     thread.priority.error_at thread.priority.range + 1 = 256 ∧
     (256 : Nat) = 16 * 16) ∧
    (thread.priority.idle = thread.priority.idle_at thread.priority.range ∧
     thread.priority.lowest =
       thread.priority.lowest_at thread.priority.range ∧
     thread.priority.low = thread.priority.low_at thread.priority.range ∧
     thread.priority.below_normal =
       thread.priority.below_normal_at thread.priority.range ∧
     thread.priority.normal =
       thread.priority.normal_at thread.priority.range ∧
     thread.priority.above_normal =
       thread.priority.above_normal_at thread.priority.range ∧
     thread.priority.high = thread.priority.high_at thread.priority.range ∧
     thread.priority.realtime =
       thread.priority.realtime_at thread.priority.range ∧
     thread.priority.highest =
       thread.priority.highest_at thread.priority.range ∧
     thread.priority.isr = thread.priority.isr_at thread.priority.range ∧
     thread.priority.error =
       thread.priority.error_at thread.priority.range) ∧
    (thread.priority.idle = 1 * 16 ∧ thread.priority.lowest = 2 * 16 ∧
     thread.priority.low = 2 * 16 ∧
     thread.priority.below_normal = 4 * 16 ∧
     thread.priority.normal = 6 * 16 ∧
     thread.priority.above_normal = 8 * 16 ∧
     thread.priority.high = 10 * 16 ∧
     thread.priority.realtime = 12 * 16 ∧
     thread.priority.highest = 14 * 16 - 1 ∧
     thread.priority.isr = 15 * 16 - 1 ∧
     thread.priority.error = 16 * 16 - 1) := by
  refine ⟨?_, by decide, by decide, by decide, by decide⟩
  intro r hr
  interval_cases r <;> decide

/-- Witness for C6: the narrowest configuration `r = 0` yields 16 priority
levels. -/
theorem priority_levels_prescaler_witness :
    thread.priority.error_at 0 + 1 = 16 <<< 0 :=
  priority_levels_prescaler.1 0 (by decide)

/-- C7: a `signal_wait` with the special mask `sig::any = 0` is satisfied
exactly when at least one signal flag is raised, whichever bit it is: any
nonzero raised set satisfies it, the empty set does not, and any single
raised bit suffices. -/
theorem signal_wait_any_mask :
    thread.sig.any = 0 ∧
    (∀ raised mode : Nat, raised ≠ 0 →
      thread.sig.satisfied raised thread.sig.any mode = true) ∧
    (∀ mode : Nat, thread.sig.satisfied 0 thread.sig.any mode = false) ∧
    (∀ i mode : Nat,
      thread.sig.satisfied (1 <<< i) thread.sig.any mode = true) := by
  refine ⟨rfl, ?_, ?_, ?_⟩
  · intro raised mode h
    simp [thread.sig.satisfied, thread.sig.any, h]
  · intro mode
    simp [thread.sig.satisfied, thread.sig.any]
  · intro i mode
    have h : (1 : Nat) <<< i ≠ 0 := by
      simp [Nat.shiftLeft_eq]
    simp [thread.sig.satisfied, thread.sig.any, h]

/-- Witness for C7: the raised set `0b101` satisfies a wait with the zero
mask. -/
theorem signal_wait_any_mask_witness :
    thread.sig.satisfied 5 thread.sig.any 0 = true :=
  signal_wait_any_mask.2.1 5 0 (by decide)

/-- C9: a `Named_object` always exposes a non-null name: constructing with
a null pointer stores the literal `"-"`, constructing with a non-null name
stores that name, so `name()` never yields a null pointer. -/
theorem named_object_name_nonnull :
    (∀ nm : Option String,
      (Named_object.construct nm).name.isSome = true) ∧
    (Named_object.construct Option.none).name = some "-" ∧
    (∀ s : String, (Named_object.construct (some s)).name = some s) := by
  refine ⟨?_, rfl, ?_⟩
  · intro nm; cases nm <;> rfl
  · intro s; rfl

/-- C10: the flag-wait mode constants `all = 1`, `any = 2`, `clear = 4`
are pairwise disjoint single-bit masks; every bitwise-OR combination
decodes uniquely (a combined value contains a mode exactly when that
mode's bit was included), and no OR of two modes equals the third. -/
theorem flags_mode_disjoint :
    (flags.mode.all = 1 ∧ flags.mode.any = 2 ∧ flags.mode.clear = 4) ∧
    (flags.mode.all = 2 ^ 0 ∧ flags.mode.any = 2 ^ 1 ∧
     flags.mode.clear = 2 ^ 2) ∧
    (flags.mode.all &&& flags.mode.any = 0 ∧
     flags.mode.all &&& flags.mode.clear = 0 ∧
     flags.mode.any &&& flags.mode.clear = 0) ∧
    (flags.mode.all ||| flags.mode.any ≠ flags.mode.clear ∧
     flags.mode.all ||| flags.mode.clear ≠ flags.mode.any ∧
     flags.mode.any ||| flags.mode.clear ≠ flags.mode.all) ∧
    (∀ a b c : Bool,
      ((((if a then flags.mode.all else 0) |||
         (if b then flags.mode.any else 0) |||
         (if c then flags.mode.clear else 0)) &&& flags.mode.all ≠ 0) ↔
        a = true) ∧
      ((((if a then flags.mode.all else 0) |||
         (if b then flags.mode.any else 0) |||
         (if c then flags.mode.clear else 0)) &&& flags.mode.any ≠ 0) ↔
        b = true) ∧
      ((((if a then flags.mode.all else 0) |||
         (if b then flags.mode.any else 0) |||
         (if c then flags.mode.clear else 0)) &&& flags.mode.clear ≠ 0) ↔
        c = true)) := by
  refine ⟨by decide, by decide, by decide, by decide, ?_⟩
  intro a b c
  cases a <;> cases b <;> cases c <;> refine ⟨?_, ?_, ?_⟩ <;> decide

/-- C8: `result::ok` is exactly `0`, every documented error code is a
nonzero POSIX errno value and they are pairwise distinct; the modelled
operations (`Mutex::lock` decision step, `Semaphore::post`) return either
`ok` or a code from the documented set. -/
theorem result_codes_posix :
    (result.ok = 0 ∧ 0 ∉ documented_errnos ∧ documented_errnos.Nodup) ∧
    (∀ e : Nat, e ∈ documented_errnos → 0 < e) ∧
    (∀ (m : mutex.Mutex) (t code : Nat) (m2 : mutex.Mutex),
      mutex.lock_step m t = mutex.lock_outcome.ret code m2 →
      code = result.ok ∨ code ∈ documented_errnos) ∧
    (∀ s : semaphore.Semaphore,
      (semaphore.post s).1 = result.ok ∨
      (semaphore.post s).1 ∈ documented_errnos) := by
  refine ⟨by decide, ?_, ?_, ?_⟩
  · intro e he
    fin_cases he <;> decide
  · intro m t code m2 h
    unfold mutex.lock_step at h
    split at h
    · simp only [mutex.lock_outcome.ret.injEq] at h
      left; exact h.1.symm
    · split at h
      · split at h
        · split at h
          · simp only [mutex.lock_outcome.ret.injEq] at h
            right; rw [← h.1]; decide
          · simp only [mutex.lock_outcome.ret.injEq] at h
            left; exact h.1.symm
        · simp only [mutex.lock_outcome.ret.injEq] at h
          right; rw [← h.1]; decide
        · exact mutex.lock_outcome.noConfusion h
      · exact mutex.lock_outcome.noConfusion h
  · intro s
    unfold semaphore.post
    by_cases h1 : s.max_count_ ≤ s.count_
    · rw [if_pos h1]
      right
      show errno.EOVERFLOW ∈ documented_errnos
      decide
    · rw [if_neg h1]
      by_cases h2 : s.count_ ≤ 0
      · rw [if_pos h2]; left; rfl
      · rw [if_neg h2]; left; rfl

/-- Witness for C8: `EPERM` is a concrete member of the documented set and
is positive; a concrete relock of an errorcheck mutex returns a documented
code. -/
theorem result_codes_posix_witness :
    0 < errno.EPERM ∧
    (errno.EDEADLK = result.ok ∨ errno.EDEADLK ∈ documented_errnos) :=
  ⟨result_codes_posix.2.1 errno.EPERM (by decide),
   result_codes_posix.2.2.1 ⟨some 1, 1, mutex.type.errorcheck⟩ 1
     errno.EDEADLK ⟨some 1, 1, mutex.type.errorcheck⟩ (by rfl)⟩

end rtos

end os
